import Mathlib

/-!
Shallow embedding of `src/Resources/Scripts/convert_pytorch.py` (the checkpoint
classification and conversion pipeline) and proofs of its specified properties.

Pure fragments of the script (checkpoint classification, architecture
inference, the tensor-processing loop, shape parsing, error-code selection)
are translated directly into Lean functions.  Effectful fragments
(`torch.load`, `torch.jit.trace`/`script`, `coremltools.convert`,
`safetensors.save_file`, file writes) are modelled by explicit oracle
parameters describing the outcome of each external call, so that every
control-flow path of the script becomes a path of a total Lean function.
The externally observable state of a run — the ordered JSON-line event
stream, the exit code, and the written artifacts — is returned explicitly.
-/

namespace ConvertPytorch

/-! ## Tensors and dtypes -/

/-- The torch element dtypes that matter to the script: the two
reduced-precision floating types it upcasts, float32 (the upcast target),
and a sample of other dtypes that pass through unchanged. -/
inductive Dtype where
  | float16
  | bfloat16
  | float32
  | float64
  | int64
  | int32
  | uint8
deriving DecidableEq

/-- `str(tensor.dtype)` for each modelled dtype. -/
def Dtype.label : Dtype → String
  | .float16 => "torch.float16"
  | .bfloat16 => "torch.bfloat16"
  | .float32 => "torch.float32"
  | .float64 => "torch.float64"
  | .int64 => "torch.int64"
  | .int32 => "torch.int32"
  | .uint8 => "torch.uint8"

/-- A torch tensor, abstracted to the two attributes the script reads:
its shape and its element dtype.  Values and memory layout are irrelevant
to every property proved here. -/
structure Tensor where
  shape : List Nat
  dtype : Dtype
deriving DecidableEq

/-- `tensor.numel()`: product of the shape. -/
def Tensor.numel (t : Tensor) : Nat := t.shape.prod

/-- `tensor.float()`: cast to float32; the shape is unchanged. -/
def Tensor.toFloat32 (t : Tensor) : Tensor := ⟨t.shape, .float32⟩

/-- `tensor.contiguous()`: forces a contiguous layout; shape and dtype are
unchanged, and layout is not modelled, so this is the identity. -/
def Tensor.contiguous (t : Tensor) : Tensor := t

/-! ## Python objects

A checkpoint is an arbitrary deserialized Python object.  The script only
ever distinguishes: `None`, torch tensors, dicts, and "anything else".
For the last kind the behaviour of the script depends on how the object responds
to `eval()`, `torch.jit.trace`, `torch.jit.script` and `state_dict()`;
those responses are oracle fields of the `obj` constructor
(`none` = the call succeeds, `some msg` = it raises with message `msg`). -/

inductive PyObj where
  | pyNone
  | tensor (t : Tensor)
  | dict (entries : List (String × PyObj))
  | obj (evalFails traceFails scriptFails : Option String)
        (stateDict : Option (List (String × PyObj)))

/-- `isinstance(v, torch.Tensor)`. -/
def PyObj.isTensor : PyObj → Bool
  | .tensor _ => true
  | _ => false

/-- `isinstance(v, dict)`. -/
def PyObj.isDict : PyObj → Bool
  | .dict _ => true
  | _ => false

/-- `type(o).__name__`, used in AttributeError messages. -/
def PyObj.typeName : PyObj → String
  | .pyNone => "NoneType"
  | .tensor _ => "Tensor"
  | .dict _ => "dict"
  | .obj _ _ _ _ => "object"

/-- Outcome of `o.eval()`: dicts, tensors and `None` have no `eval`
attribute, so the call raises an AttributeError; a generic object answers
through its oracle field. -/
def PyObj.evalResult : PyObj → Option String
  | .obj e _ _ _ => e
  | o => some ("\x27" ++ o.typeName ++ "\x27 object has no attribute \x27eval\x27")

/-- Outcome of `torch.jit.trace(o, dummy)` (`none` = success).  Only
generic objects ever reach this call in the script (everything else fails
`eval()` first), but the function is total. -/
def PyObj.traceResult : PyObj → Option String
  | .obj _ t _ _ => t
  | o => some ("\x27" ++ o.typeName ++ "\x27 object is not traceable")

/-- Outcome of `torch.jit.script(o)` (`none` = success). -/
def PyObj.scriptResult : PyObj → Option String
  | .obj _ _ s _ => s
  | o => some ("\x27" ++ o.typeName ++ "\x27 object is not scriptable")

/-- `hasattr(o, "state_dict")`. -/
def PyObj.hasStateDictAttr : PyObj → Bool
  | .obj _ _ _ sd => sd.isSome
  | _ => false

/-- `o.state_dict()` for an object that has the attribute. -/
def PyObj.stateDictAttr : PyObj → List (String × PyObj)
  | .obj _ _ _ (some sd) => sd
  | _ => []

/-! ## String helpers mirroring the Python primitives used by the script -/

/-- ASCII lowercasing of one character (`str.lower` restricted to the
ASCII names that occur in checkpoints). -/
def lowerChar (c : Char) : Char :=
  if 'A' ≤ c ∧ c ≤ 'Z' then Char.ofNat (c.toNat + 32) else c

/-- `s.lower()`. -/
def pyLower (s : String) : String := ⟨s.data.map lowerChar⟩

/-- Does the character list start with the given pattern? -/
def leadMatch : List Char → List Char → Bool
  | [], _ => true
  | _ :: _, [] => false
  | a :: as, b :: bs => a == b && leadMatch as bs

/-- Substring containment on character lists (`needle in haystack`). -/
def containsSub (needle : List Char) : List Char → Bool
  | [] => leadMatch needle []
  | c :: rest => leadMatch needle (c :: rest) || containsSub needle rest

/-- Python `needle in haystack` on strings. -/
def strContains (haystack needle : String) : Bool :=
  containsSub needle.data haystack.data

/-- Python `repr` of a tuple of ints, as interpolated by f-strings
(`(1, 3, 224, 224)`, with the trailing comma for a 1-tuple). -/
def pyTupleRepr (l : List Int) : String :=
  match l with
  | [x] => "(" ++ toString x ++ ",)"
  | _ => "(" ++ String.intercalate ", " (l.map toString) ++ ")"

/-- Python `repr` of a short string (quote-wrapping; escaping of special
characters inside the string is not modelled). -/
def pyStrRepr (s : String) : String := "\x27" ++ s ++ "\x27"

/-! ## `int()` and the shape argument

`tuple(map(int, args.input_shape.split(",")))`: split on commas, then
parse each token with Python `int`, which strips surrounding whitespace,
allows one sign, and allows single underscores between digits.  The first
invalid token raises `ValueError("invalid literal for int() ...")`. -/

def isPyDigit (c : Char) : Bool := '0' ≤ c && c ≤ '9'

/-- Digits possibly separated by single underscores, continuing the value
`acc`; `none` when the grouping is malformed. -/
def digitsVal : List Char → Nat → Option Nat
  | [], acc => some acc
  | '_' :: c :: rest, acc =>
    if isPyDigit c then digitsVal rest (acc * 10 + (c.toNat - 48)) else none
  | ['_'], _ => none
  | c :: rest, acc =>
    if isPyDigit c then digitsVal rest (acc * 10 + (c.toNat - 48)) else none

/-- Python `int(token)` (`none` = ValueError). -/
def pyParseInt (s : String) : Option Int :=
  let core := (s.data.dropWhile Char.isWhitespace).reverse.dropWhile Char.isWhitespace |>.reverse
  match core with
  | '+' :: c :: rest =>
    if isPyDigit c then (digitsVal rest (c.toNat - 48)).map (fun n => (n : Int)) else none
  | '-' :: c :: rest =>
    if isPyDigit c then (digitsVal rest (c.toNat - 48)).map (fun n => -(n : Int)) else none
  | c :: rest =>
    if isPyDigit c then (digitsVal rest (c.toNat - 48)).map (fun n => (n : Int)) else none
  | [] => none

/-- Parse the comma-separated tokens in order; the first invalid token
produces the ValueError message. -/
def parseTokens : List String → Except String (List Int)
  | [] => .ok []
  | t :: rest =>
    match pyParseInt t with
    | none => .error ("invalid literal for int() with base 10: " ++ pyStrRepr t)
    | some n => (parseTokens rest).map (fun l => n :: l)

/-- Python `s.split(",")` on character lists: one fragment per
comma-separated stretch, including empty fragments. -/
def splitCommaAux : List Char → List Char → List String
  | [], acc => [⟨acc⟩]
  | ',' :: rest, acc => ⟨acc⟩ :: splitCommaAux rest []
  | c :: rest, acc => splitCommaAux rest (acc ++ [c])

/-- Python `s.split(",")`. -/
def pySplitComma (s : String) : List String := splitCommaAux s.data []

/-- `tuple(map(int, s.split(",")))` with the ValueError it may raise. -/
def parseShape (s : String) : Except String (List Int) :=
  parseTokens (pySplitComma s)

/-! ## Events

One constructor per JSON event shape emitted by `emit`.  Progress values
are the decimal literals of the script, embedded exactly as rationals
(`0.1` = `mkRat 1 10`, ..., `1.0` = `1`). -/

/-- The `"metadata"` object of a `completed` event: the reduced metadata
dict each converter returns to `main`. -/
inductive EventMeta where
  | coremlMeta (inputShape : List Int) (computeUnits deploymentTarget : String)
  | mlxMeta (inputShape : List Int) (architectureType : String)
            (layerCount : Nat) (totalParameters : Nat)
deriving DecidableEq

/-- One JSON line on stdout. -/
inductive Event where
  | log (level message : String)
  | progress (percent : ℚ) (step : String)
  | completed (outputPath fmt : String) (metadata : EventMeta)
  | error (message code : String)
deriving DecidableEq

def Event.isCompleted : Event → Bool
  | .completed _ _ _ => true
  | _ => false

/-- The percents of the progress events of a stream, in emission order. -/
def progressValues (evs : List Event) : List ℚ :=
  evs.filterMap fun e =>
    match e with
    | .progress p _ => some p
    | _ => none

/-- The (message, code) pairs of the error events of a stream. -/
def errorEvents (evs : List Event) : List (String × String) :=
  evs.filterMap fun e =>
    match e with
    | .error m c => some (m, c)
    | _ => none

/-- The completed events of a stream. -/
def completedEvents (evs : List Event) : List Event :=
  evs.filter Event.isCompleted

/-! ## Checkpoint classification (`load_pytorch_model`, lines 59-84)

The ordered heuristics over the deserialized checkpoint, producing the
`model`/`state_dict` pair of local variables together with the log events
the branch emits. -/

def classifyCheckpoint (checkpoint : PyObj) :
    Option PyObj × Option PyObj × List Event :=
  match checkpoint with
  | .dict entries =>
    match List.lookup "model" entries with
    | some m =>
      (some m, none, [.log "info" "Found \x27model\x27 key in checkpoint"])
    | none =>
      match List.lookup "state_dict" entries with
      | some sd =>
        (none, some sd, [.log "info" "Found \x27state_dict\x27 key (model class required)"])
      | none =>
        match List.lookup "model_state_dict" entries with
        | some sd =>
          (none, some sd, [.log "info" "Found \x27model_state_dict\x27 key (model class required)"])
        | none =>
          if entries.all (fun kv => kv.2.isTensor) then
            (none, some checkpoint, [.log "info" "Checkpoint appears to be a state_dict"])
          else
            (some checkpoint, none, [])
  | other => (some other, none, [])

/-! ## The materializer (`load_pytorch_model`, lines 40-125) -/

/-- Outcome of the two `torch.load` attempts (lines 48-55): first attempt
succeeds; first fails and the `weights_only=True` retry succeeds; or both
fail. -/
inductive LoadOutcome where
  | ok (checkpoint : PyObj)
  | retryOk (firstErr : String) (checkpoint : PyObj)
  | fail (firstErr secondErr : String)

/-- How a modelled Python call ends: a normal return, an exception
propagating to the caller, or `sys.exit(code)` (a `SystemExit`, which the
`except Exception` of the script does not catch). -/
inductive Outcome (α : Type) where
  | ret (v : α)
  | raise (msg : String)
  | exits (code : Nat)

/-- The result of `torch.jit.trace`/`torch.jit.script`, abstracted to
which strategy produced it. -/
inductive TracedModel where
  | traced (m : PyObj)
  | scripted (m : PyObj)

/-- `torch.randn(*input_shape)` raises on a negative dimension. -/
def randnFails (input_shape : List Int) : Option String :=
  if input_shape.all (fun d => 0 ≤ d) then none
  else some "normal expects all elements of size to be non-negative"

/-- `load_pytorch_model` after a successful `torch.load`: classification,
then the trace → script → state_dict-extraction fallback chain.  `ev0` is
the event stream already emitted by the function. -/
def load_afterLoad (input_shape : List Int) (checkpoint : PyObj) (ev0 : List Event) :
    List Event × Outcome (Option TracedModel × Option PyObj × PyObj) :=
  let ev1 := ev0 ++ [Event.progress (mkRat 2 10) "Analyzing checkpoint"]
  let cls := classifyCheckpoint checkpoint
  let ev2 := ev1 ++ cls.2.2 ++ [Event.progress (mkRat 3 10) "Preparing model"]
  match cls.1, cls.2.1 with
  | none, some sd =>
    (ev2 ++ [Event.log "warning" "Checkpoint contains only weights (state_dict)",
             Event.log "info" "MLX conversion will proceed with raw weights"],
     .ret (none, some sd, checkpoint))
  | some m, _ =>
    match m.evalResult with
    | some e => (ev2, .raise e)
    | none =>
      let ev3 := ev2 ++
        [Event.log "info" ("Tracing model with input shape: " ++ pyTupleRepr input_shape),
         Event.progress (mkRat 4 10) "Tracing model"]
      let traceErr : Option String :=
        match randnFails input_shape with
        | some e => some e
        | none => m.traceResult
      match traceErr with
      | none =>
        (ev3 ++ [Event.log "info" "Model traced successfully"],
         .ret (some (.traced m), none, checkpoint))
      | some e =>
        let ev4 := ev3 ++ [Event.log "warning" ("Tracing failed: " ++ e),
                           Event.log "info" "Attempting scripting instead..."]
        match m.scriptResult with
        | none =>
          (ev4 ++ [Event.log "info" "Model scripted successfully"],
           .ret (some (.scripted m), none, checkpoint))
        | some e2 =>
          let ev5 := ev4 ++ [Event.log "warning" ("Scripting also failed: " ++ e2)]
          if m.hasStateDictAttr then
            (ev5 ++ [Event.log "info" "Extracted state_dict from model"],
             .ret (none, some (.dict m.stateDictAttr), checkpoint))
          else
            (ev5, .raise ("Cannot process model: " ++ e))
  | none, none => (ev2, .raise "Could not extract model or state_dict from checkpoint")

/-- `load_pytorch_model(model_path, input_shape)`: returns the events it
emits and `(traced_model, state_dict, checkpoint)` or the exception. -/
def load_pytorch_model (model_path : String) (input_shape : List Int) (lo : LoadOutcome) :
    List Event × Outcome (Option TracedModel × Option PyObj × PyObj) :=
  let ev0 : List Event :=
    [.log "info" ("Loading PyTorch model from " ++ model_path),
     .progress (mkRat 1 10) "Loading model"]
  match lo with
  | .fail e _ => (ev0, .raise ("Failed to load model: " ++ e))
  | .ok checkpoint => load_afterLoad input_shape checkpoint ev0
  | .retryOk _ checkpoint => load_afterLoad input_shape checkpoint ev0

/-! ## `convert_to_coreml` (lines 128-201) -/

/-- Outcome of the external parts of the CoreML path: the
`import coremltools` at the top, `ct.convert`, and `mlmodel.save`
(metadata attribute assignment cannot fail). -/
inductive CoremlWorld where
  | unavailable
  | convertFails (msg : String)
  | saveFails (msg : String)
  | ok

/-- The input-descriptor log (lines 139-156): a 4-dimension shape with
1, 3 or 4 channels is an image input, everything else a generic tensor. -/
def coremlInputTypeLog (input_shape : List Int) : Event :=
  match input_shape with
  | [_, channels, height, width] =>
    if channels = 1 ∨ channels = 3 ∨ channels = 4 then
      .log "info" ("Using ImageType input: " ++ toString channels ++ "ch " ++
                   toString height ++ "x" ++ toString width)
    else
      .log "info" ("Using TensorType input: " ++ pyTupleRepr input_shape)
  | _ => .log "info" ("Using TensorType input: " ++ pyTupleRepr input_shape)

/-- The error event of the `except` block at lines 193-200: substring
match on the lower-cased exception message, first match wins. -/
def coremlFailureEvent (msg : String) : Event :=
  if strContains (pyLower msg) "not supported" then
    .error ("Model contains unsupported operations: " ++ msg) "UNSUPPORTED_OP"
  else if strContains (pyLower msg) "shape" then
    .error ("Shape mismatch during conversion: " ++ msg) "SHAPE_MISMATCH"
  else
    .error ("CoreML conversion failed: " ++ msg) "CONVERSION_FAILED"

/-- `convert_to_coreml(traced_model, input_shape, output_path, model_name)`. -/
def convert_to_coreml (traced_model : TracedModel) (input_shape : List Int)
    (output_path model_name : String) (w : CoremlWorld) :
    List Event × Outcome EventMeta :=
  match w with
  | .unavailable =>
    ([.error "coremltools not installed. Run: pip install coremltools" "MISSING_PACKAGE"],
     .exits 1)
  | w =>
    let _ := traced_model
    let _ := model_name
    let ev := [Event.log "info" "Converting to CoreML format",
               Event.progress (mkRat 5 10) "Converting to CoreML",
               coremlInputTypeLog input_shape,
               Event.progress (mkRat 6 10) "Running coremltools conversion"]
    match w with
    | .convertFails msg => (ev ++ [coremlFailureEvent msg], .exits 1)
    | .saveFails msg =>
      (ev ++ [Event.progress (mkRat 8 10) "Optimizing model",
              Event.progress (mkRat 9 10) "Saving model",
              Event.log "info" ("Saving CoreML model to " ++ output_path),
              coremlFailureEvent msg],
       .exits 1)
    | _ =>
      (ev ++ [Event.progress (mkRat 8 10) "Optimizing model",
              Event.progress (mkRat 9 10) "Saving model",
              Event.log "info" ("Saving CoreML model to " ++ output_path),
              Event.progress 1 "Complete"],
       .ret (.coremlMeta input_shape "all" "macOS14"))

/-! ## `convert_to_mlx` (lines 204-294) -/

/-- One retained archive entry: name, shape, `str(dtype)` — the contents
of one `layer_info` element. -/
structure TensorRecord where
  name : String
  shape : List Nat
  dtype : String
deriving DecidableEq

/-- The sidecar metadata JSON document written next to the archive. -/
structure Sidecar where
  inputShape : List Int
  fmt : String
  layerCount : Nat
  layers : List TensorRecord
  architectureType : String
  totalParameters : Nat
deriving DecidableEq

/-- Outcome of the external parts of the MLX path: the
`from safetensors.torch import save_file` import, `save_file`, and the
sidecar `open`/`json.dump`. -/
structure MlxWorld where
  safetensorsAvailable : Bool
  saveFails : Option String
  metaFails : Option String

/-- Lines 246-247: reduced-precision floating tensors are upcast to
float32; all other dtypes pass through. -/
def upcastTensor (t : Tensor) : Tensor :=
  if t.dtype = .float16 ∨ t.dtype = .bfloat16 then t.toFloat32 else t

/-- Python `tensors[key] = tensor`: overwrite in place if the key exists,
else append. -/
def dictInsert (d : List (String × Tensor)) (k : String) (v : Tensor) :
    List (String × Tensor) :=
  if d.any (fun p => p.1 = k) then
    d.map (fun p => if p.1 = k then (k, v) else p)
  else d ++ [(k, v)]

/-- The tensor loop of lines 240-258, threading the `tensors` dict and
the `layer_info` list. -/
def processTensorsAux : List (String × PyObj) → List (String × Tensor) →
    List TensorRecord → List (String × Tensor) × List TensorRecord
  | [], tensors, layer_info => (tensors, layer_info)
  | (key, v) :: rest, tensors, layer_info =>
    match v with
    | .tensor t0 =>
      let t := (upcastTensor t0).contiguous
      processTensorsAux rest (dictInsert tensors key t)
        (layer_info ++ [⟨key, t.shape, t.dtype.label⟩])
    | _ => processTensorsAux rest tensors layer_info

/-- The tensor loop started on empty accumulators. -/
def processTensors (sd : List (String × PyObj)) :
    List (String × Tensor) × List TensorRecord :=
  processTensorsAux sd [] []

/-- `infer_architecture(layer_info)` (lines 297-324): ordered substring
predicates over the lower-cased layer names, first match wins. -/
def infer_architecture (layer_info : List TensorRecord) : String :=
  let layer_names := layer_info.map (fun l => pyLower l.name)
  let layer_names_str := String.intercalate " " layer_names
  if (strContains layer_names_str "resnet" ||
      layer_names.any (fun n => strContains n "layer" && strContains n "conv")) &&
     layer_names.any (fun n => strContains n "downsample" || strContains n "shortcut") then
    "ResNet"
  else if layer_names.any (fun n => strContains n "conv") then
    if layer_names.any (fun n => strContains n "bn" || strContains n "batch") then "CNN"
    else "CNN"
  else if layer_names.any (fun n =>
      strContains n "attention" || strContains n "transformer" || strContains n "encoder") then
    "Transformer"
  else if layer_names.any (fun n => strContains n "vit" || strContains n "patch_embed") then
    "Transformer"
  else if layer_names.all (fun n =>
      strContains n "fc" || strContains n "linear" ||
      strContains n "weight" || strContains n "bias") then
    "MLP"
  else if layer_names.any (fun n => strContains n "yolo" || strContains n "detect") then
    "YOLOv8"
  else
    "Custom"

/-- The recovery pass of lines 217-232, run when `state_dict` is `None`:
key unwrapping, then `checkpoint["model"].state_dict()` if available,
then the checkpoint itself filtered to tensor values; `none` means the
`INVALID_CHECKPOINT` branch. -/
def extractStateDict (checkpoint : PyObj) : Option PyObj :=
  match checkpoint with
  | .dict entries =>
    match List.lookup "state_dict" entries with
    | some sd => some sd
    | none =>
      match List.lookup "model_state_dict" entries with
      | some sd => some sd
      | none =>
        match List.lookup "model" entries with
        | some m =>
          if m.hasStateDictAttr then some (.dict m.stateDictAttr)
          else some (.dict (entries.filter (fun kv => kv.2.isTensor)))
        | none => some (.dict (entries.filter (fun kv => kv.2.isTensor)))
  | other =>
    if other.hasStateDictAttr then some (.dict other.stateDictAttr) else none

/-- Everything `convert_to_mlx` leaves behind: its events, the archive
file if `save_file` ran, the sidecar document if it was written, and how
the call ended. -/
structure MlxCallResult where
  events : List Event
  archiveWritten : Option (List (String × Tensor))
  sidecarWritten : Option Sidecar
  outcome : Outcome EventMeta

/-- `convert_to_mlx` from `progress(0.6, ...)` on, once `state_dict` is
resolved. -/
def convert_to_mlx_rest (state_dict : PyObj) (input_shape : List Int)
    (output_path : String) (w : MlxWorld) (ev : List Event) : MlxCallResult :=
  let ev := ev ++ [Event.progress (mkRat 6 10) "Processing tensors"]
  match state_dict with
  | .dict entries =>
    let tli := processTensors entries
    let tensors := tli.1
    let layer_info := tli.2
    let ev := ev ++ [Event.progress (mkRat 8 10) "Saving safetensors",
                     Event.log "info" ("Saving MLX model to " ++ output_path)]
    match w.saveFails with
    | some e => ⟨ev, none, none, .raise e⟩
    | none =>
      let ev := ev ++ [Event.progress (mkRat 9 10) "Saving metadata"]
      let arch := infer_architecture layer_info
      let total := (tensors.map (fun kv => kv.2.numel)).sum
      match w.metaFails with
      | some e => ⟨ev, some tensors, none, .raise e⟩
      | none =>
        ⟨ev ++ [Event.progress 1 "Complete"], some tensors,
         some ⟨input_shape, "mlx", layer_info.length, layer_info, arch, total⟩,
         .ret (.mlxMeta input_shape arch layer_info.length total)⟩
  | other =>
    ⟨ev, none, none,
     .raise ("\x27" ++ other.typeName ++ "\x27 object has no attribute \x27items\x27")⟩

/-- `convert_to_mlx(state_dict, input_shape, output_path, checkpoint)`. -/
def convert_to_mlx (state_dict : Option PyObj) (input_shape : List Int)
    (output_path : String) (checkpoint : PyObj) (w : MlxWorld) : MlxCallResult :=
  if w.safetensorsAvailable then
    let ev := [Event.log "info" "Converting to MLX safetensors format",
               Event.progress (mkRat 5 10) "Extracting weights"]
    match state_dict with
    | some sd => convert_to_mlx_rest sd input_shape output_path w ev
    | none =>
      match extractStateDict checkpoint with
      | some sd => convert_to_mlx_rest sd input_shape output_path w ev
      | none =>
        ⟨ev ++ [.error "Cannot extract state_dict from checkpoint" "INVALID_CHECKPOINT"],
         none, none, .exits 1⟩
  else
    ⟨[.error "safetensors not installed. Run: pip install safetensors" "MISSING_PACKAGE"],
     none, none, .exits 1⟩

/-! ## `main` (lines 327-368) -/

/-- The parsed command-line arguments (argparse itself is out of scope;
`fmt` is the `--format` value). -/
structure Args where
  input : String
  output : String
  fmt : String
  input_shape : String
  name : String

/-- All external-call outcomes of one run. -/
structure World where
  load : LoadOutcome
  coreml : CoremlWorld
  mlx : MlxWorld

/-- The externally observable result of one run: the ordered event
stream, the process exit code, and the artifacts the MLX path wrote. -/
structure RunResult where
  events : List Event
  exitCode : Nat
  archive : Option (List (String × Tensor))
  sidecar : Option Sidecar

/-- `main()`: shape parsing and validation, loading, format dispatch, the
`completed` event, and the top-level `except Exception` that reports any
propagating exception as `CONVERSION_FAILED` (a `KeyboardInterrupt` never
arrives in the modelled worlds). -/
def runMain (args : Args) (w : World) : RunResult :=
  match parseShape args.input_shape with
  | .error e => ⟨[.error e "CONVERSION_FAILED"], 1, none, none⟩
  | .ok input_shape =>
    let ev := [Event.log "info" ("Input shape: " ++ pyTupleRepr input_shape)]
    if input_shape.length < 2 then
      ⟨ev ++ [.error "Input shape must have at least 2 dimensions" "INVALID_SHAPE"],
       1, none, none⟩
    else
      let res := load_pytorch_model args.input input_shape w.load
      let ev := ev ++ res.1
      match res.2 with
      | .raise msg => ⟨ev ++ [.error msg "CONVERSION_FAILED"], 1, none, none⟩
      | .exits c => ⟨ev, c, none, none⟩
      | .ret rtc =>
        if args.fmt = "coreml" then
          match rtc.1 with
          | none =>
            ⟨ev ++ [.error "CoreML conversion requires a traceable model. This checkpoint only contains weights (state_dict). Try MLX format instead." "STATE_DICT_ONLY"],
             1, none, none⟩
          | some tm =>
            let r := convert_to_coreml tm input_shape args.output args.name w.coreml
            let ev := ev ++ r.1
            match r.2 with
            | .ret meta => ⟨ev ++ [.completed args.output args.fmt meta], 0, none, none⟩
            | .raise msg => ⟨ev ++ [.error msg "CONVERSION_FAILED"], 1, none, none⟩
            | .exits c => ⟨ev, c, none, none⟩
        else
          let r := convert_to_mlx rtc.2.1 input_shape args.output rtc.2.2 w.mlx
          let ev := ev ++ r.events
          match r.outcome with
          | .ret meta =>
            ⟨ev ++ [.completed args.output args.fmt meta], 0, r.archiveWritten, r.sidecarWritten⟩
          | .raise msg =>
            ⟨ev ++ [.error msg "CONVERSION_FAILED"], 1, r.archiveWritten, r.sidecarWritten⟩
          | .exits c => ⟨ev, c, r.archiveWritten, r.sidecarWritten⟩

/-! ## Derived observables and concrete fixtures -/

/-- The progress percents of `load_pytorch_model` in emission order:
every run emits a subsequence of these. -/
def loadMaster : List ℚ := [mkRat 1 10, mkRat 2 10, mkRat 3 10, mkRat 4 10]

/-- The progress percents of either converter in emission order. -/
def convMaster : List ℚ := [mkRat 5 10, mkRat 6 10, mkRat 8 10, mkRat 9 10, 1]

/-- The progress percents of a whole run in emission order. -/
def fullMaster : List ℚ := loadMaster ++ convMaster

/-- Whenever a `completed` event occurs in the stream, the progress value
last emitted before it is exactly 1.0. -/
def finalProgressIsOne (evs : List Event) : Prop :=
  ∀ pre e post, evs = pre ++ e :: post → e.isCompleted = true →
    (progressValues pre).getLast? = some 1

/-- Layer records carrying only names, as fed to the architecture
inferencer in the spec examples. -/
def mkRecs (names : List String) : List TensorRecord :=
  names.map fun n => ⟨n, [], "torch.float32"⟩

/-- The end-to-end scenario checkpoint: an all-tensor mapping with two
float16 tensors. -/
def entries5 : List (String × PyObj) :=
  [("conv1.weight", .tensor ⟨[16, 3, 3, 3], .float16⟩),
   ("conv1.bias", .tensor ⟨[16], .float16⟩)]

def cp5 : PyObj := .dict entries5

/-- The end-to-end scenario invocation: mlx format, shape `1,3,224,224`. -/
def args5 : Args := ⟨"in.pt", "out.safetensors", "mlx", "1,3,224,224", "Converted Model"⟩

/-- A world where every external call of the mlx path succeeds. -/
def w5 : World := ⟨.ok cp5, .ok, ⟨true, none, none⟩⟩

/-- The empty-mapping checkpoint invocation: mlx format, shape `1,8`. -/
def args9 : Args := ⟨"in.pt", "out.safetensors", "mlx", "1,8", "Converted Model"⟩

def w9 : World := ⟨.ok (.dict []), .ok, ⟨true, none, none⟩⟩

/-! ## Helper lemmas about the observables -/

@[simp] lemma progressValues_nil : progressValues [] = [] := rfl

@[simp] lemma progressValues_cons_log (l m : String) (evs : List Event) :
    progressValues (.log l m :: evs) = progressValues evs := rfl

@[simp] lemma progressValues_cons_progress (p : ℚ) (s : String) (evs : List Event) :
    progressValues (.progress p s :: evs) = p :: progressValues evs := rfl

@[simp] lemma progressValues_cons_completed (o f : String) (m : EventMeta) (evs : List Event) :
    progressValues (.completed o f m :: evs) = progressValues evs := rfl

@[simp] lemma progressValues_cons_error (m c : String) (evs : List Event) :
    progressValues (.error m c :: evs) = progressValues evs := rfl

@[simp] lemma progressValues_append (a b : List Event) :
    progressValues (a ++ b) = progressValues a ++ progressValues b :=
  List.filterMap_append a b _

@[simp] lemma errorEvents_nil : errorEvents [] = [] := rfl

@[simp] lemma errorEvents_cons_log (l m : String) (evs : List Event) :
    errorEvents (.log l m :: evs) = errorEvents evs := rfl

@[simp] lemma errorEvents_cons_progress (p : ℚ) (s : String) (evs : List Event) :
    errorEvents (.progress p s :: evs) = errorEvents evs := rfl

@[simp] lemma errorEvents_cons_completed (o f : String) (m : EventMeta) (evs : List Event) :
    errorEvents (.completed o f m :: evs) = errorEvents evs := rfl

@[simp] lemma errorEvents_cons_error (m c : String) (evs : List Event) :
    errorEvents (.error m c :: evs) = (m, c) :: errorEvents evs := rfl

@[simp] lemma errorEvents_append (a b : List Event) :
    errorEvents (a ++ b) = errorEvents a ++ errorEvents b :=
  List.filterMap_append a b _

@[simp] lemma completedEvents_nil : completedEvents [] = [] := rfl

@[simp] lemma completedEvents_cons_log (l m : String) (evs : List Event) :
    completedEvents (.log l m :: evs) = completedEvents evs := rfl

@[simp] lemma completedEvents_cons_progress (p : ℚ) (s : String) (evs : List Event) :
    completedEvents (.progress p s :: evs) = completedEvents evs := rfl

@[simp] lemma completedEvents_cons_completed (o f : String) (m : EventMeta) (evs : List Event) :
    completedEvents (.completed o f m :: evs) = .completed o f m :: completedEvents evs := rfl

@[simp] lemma completedEvents_cons_error (m c : String) (evs : List Event) :
    completedEvents (.error m c :: evs) = completedEvents evs := rfl

@[simp] lemma completedEvents_append (a b : List Event) :
    completedEvents (a ++ b) = completedEvents a ++ completedEvents b := by
  unfold completedEvents
  exact List.filter_append _ _

@[simp] lemma isCompleted_log (l m : String) : (Event.log l m).isCompleted = false := rfl

@[simp] lemma isCompleted_progress (p : ℚ) (s : String) :
    (Event.progress p s).isCompleted = false := rfl

@[simp] lemma isCompleted_completed (o f : String) (m : EventMeta) :
    (Event.completed o f m).isCompleted = true := rfl

@[simp] lemma isCompleted_error (m c : String) : (Event.error m c).isCompleted = false := rfl

/-- The classification branch emits only log events. -/
lemma classify_events (cp : PyObj) :
    progressValues (classifyCheckpoint cp).2.2 = [] ∧
    errorEvents (classifyCheckpoint cp).2.2 = [] ∧
    completedEvents (classifyCheckpoint cp).2.2 = [] := by
  unfold classifyCheckpoint
  split
  · split
    · simp
    · split
      · simp
      · split
        · simp
        · split <;> simp
  · simp

/-- After a successful `torch.load`, the rest of `load_pytorch_model`
appends a subsequence of the progress values `0.2, 0.3, 0.4` and no error
or completed event. -/
lemma load_afterLoad_spec (shape : List Int) (cp : PyObj) (ev0 : List Event) :
    (∃ tl, progressValues (load_afterLoad shape cp ev0).1 = progressValues ev0 ++ tl ∧
        tl.Sublist [mkRat 2 10, mkRat 3 10, mkRat 4 10]) ∧
    errorEvents (load_afterLoad shape cp ev0).1 = errorEvents ev0 ∧
    completedEvents (load_afterLoad shape cp ev0).1 = completedEvents ev0 := by
  obtain ⟨hc1, hc2, hc3⟩ := classify_events cp
  unfold load_afterLoad
  rcases hcls : classifyCheckpoint cp with ⟨om, osd, logs⟩
  rw [hcls] at hc1 hc2 hc3
  have h1 : progressValues logs = [] := by simpa using hc1
  have h2 : errorEvents logs = [] := by simpa using hc2
  have h3 : completedEvents logs = [] := by simpa using hc3
  have hsubA : ([mkRat 2 10, mkRat 3 10]).Sublist [mkRat 2 10, mkRat 3 10, mkRat 4 10] :=
    List.sublist_append_left [mkRat 2 10, mkRat 3 10] [mkRat 4 10]
  simp only [hcls]
  rcases om with _ | m <;> rcases osd with _ | sd
  · exact ⟨⟨[mkRat 2 10, mkRat 3 10], by simp [h1], hsubA⟩, by simp [h2], by simp [h3]⟩
  · exact ⟨⟨[mkRat 2 10, mkRat 3 10], by simp [h1], hsubA⟩, by simp [h2], by simp [h3]⟩
  all_goals {
    split
    · exact ⟨⟨[mkRat 2 10, mkRat 3 10], by simp [h1], hsubA⟩, by simp [h2], by simp [h3]⟩
    · split
      · exact ⟨⟨[mkRat 2 10, mkRat 3 10], by simp [h1], hsubA⟩, by simp [h2], by simp [h3]⟩
      · split
        · exact ⟨⟨[mkRat 2 10, mkRat 3 10, mkRat 4 10], by simp [h1], List.Sublist.refl _⟩,
            by simp [h2], by simp [h3]⟩
        · split
          · exact ⟨⟨[mkRat 2 10, mkRat 3 10, mkRat 4 10], by simp [h1], List.Sublist.refl _⟩,
              by simp [h2], by simp [h3]⟩
          · split
            · exact ⟨⟨[mkRat 2 10, mkRat 3 10, mkRat 4 10], by simp [h1], List.Sublist.refl _⟩,
                by simp [h2], by simp [h3]⟩
            · exact ⟨⟨[mkRat 2 10, mkRat 3 10, mkRat 4 10], by simp [h1], List.Sublist.refl _⟩,
                by simp [h2], by simp [h3]⟩
    · exact ⟨⟨[mkRat 2 10, mkRat 3 10], by simp [h1], hsubA⟩, by simp [h2], by simp [h3]⟩
  }

/-- `load_pytorch_model` emits a subsequence of the progress values
`0.1, 0.2, 0.3, 0.4` and no error or completed event. -/
lemma load_spec (path : String) (shape : List Int) (lo : LoadOutcome) :
    (progressValues (load_pytorch_model path shape lo).1).Sublist loadMaster ∧
    errorEvents (load_pytorch_model path shape lo).1 = [] ∧
    completedEvents (load_pytorch_model path shape lo).1 = [] := by
  rcases lo with cp | ⟨e, cp⟩ | ⟨e1, e2⟩
  case fail =>
    have heq : load_pytorch_model path shape (.fail e1 e2) =
        ([.log "info" ("Loading PyTorch model from " ++ path),
          .progress (mkRat 1 10) "Loading model"],
         .raise ("Failed to load model: " ++ e1)) := rfl
    rw [heq]
    refine ⟨?_, by simp, by simp⟩
    show ([mkRat 1 10]).Sublist ([mkRat 1 10] ++ [mkRat 2 10, mkRat 3 10, mkRat 4 10])
    exact List.sublist_append_left _ _
  case ok =>
    have heq : load_pytorch_model path shape (.ok cp) =
        load_afterLoad shape cp
          [.log "info" ("Loading PyTorch model from " ++ path),
           .progress (mkRat 1 10) "Loading model"] := rfl
    rw [heq]
    obtain ⟨⟨tl, htl, hsub⟩, he, hc⟩ := load_afterLoad_spec shape cp
      [.log "info" ("Loading PyTorch model from " ++ path),
       .progress (mkRat 1 10) "Loading model"]
    refine ⟨?_, by rw [he]; simp, by rw [hc]; simp⟩
    rw [htl]
    have hev : progressValues [Event.log "info" ("Loading PyTorch model from " ++ path),
        Event.progress (mkRat 1 10) "Loading model"] = [mkRat 1 10] := by simp
    rw [hev]
    show (mkRat 1 10 :: tl).Sublist (mkRat 1 10 :: [mkRat 2 10, mkRat 3 10, mkRat 4 10])
    exact List.Sublist.cons₂ _ hsub
  case retryOk =>
    have heq : load_pytorch_model path shape (.retryOk e cp) =
        load_afterLoad shape cp
          [.log "info" ("Loading PyTorch model from " ++ path),
           .progress (mkRat 1 10) "Loading model"] := rfl
    rw [heq]
    obtain ⟨⟨tl, htl, hsub⟩, he, hc⟩ := load_afterLoad_spec shape cp
      [.log "info" ("Loading PyTorch model from " ++ path),
       .progress (mkRat 1 10) "Loading model"]
    refine ⟨?_, by rw [he]; simp, by rw [hc]; simp⟩
    rw [htl]
    have hev : progressValues [Event.log "info" ("Loading PyTorch model from " ++ path),
        Event.progress (mkRat 1 10) "Loading model"] = [mkRat 1 10] := by simp
    rw [hev]
    show (mkRat 1 10 :: tl).Sublist (mkRat 1 10 :: [mkRat 2 10, mkRat 3 10, mkRat 4 10])
    exact List.Sublist.cons₂ _ hsub


/-- The input-descriptor message is a log event. -/
lemma coremlInputTypeLog_log (shape : List Int) :
    ∃ m, coremlInputTypeLog shape = .log "info" m := by
  unfold coremlInputTypeLog
  repeat' split
  all_goals exact ⟨_, rfl⟩

/-- The CoreML failure report is an error event. -/
lemma coremlFailureEvent_error (msg : String) :
    ∃ m c, coremlFailureEvent msg = .error m c := by
  unfold coremlFailureEvent
  repeat' split
  all_goals exact ⟨_, _, rfl⟩

/-- `convert_to_coreml` emits a subsequence of the progress values
`0.5, 0.6, 0.8, 0.9, 1.0`, no completed event, and on success its
progress values are exactly that sequence (ending in 1.0). -/
lemma coreml_spec (tm : TracedModel) (shape : List Int) (out name : String) (w : CoremlWorld) :
    (progressValues (convert_to_coreml tm shape out name w).1).Sublist convMaster ∧
    completedEvents (convert_to_coreml tm shape out name w).1 = [] ∧
    (∀ meta, (convert_to_coreml tm shape out name w).2 = .ret meta →
        progressValues (convert_to_coreml tm shape out name w).1 = convMaster) := by
  obtain ⟨lm, hlm⟩ := coremlInputTypeLog_log shape
  rcases w with _ | msg | msg | _
  case unavailable =>
    have heq : convert_to_coreml tm shape out name .unavailable =
        ([.error "coremltools not installed. Run: pip install coremltools" "MISSING_PACKAGE"],
         .exits 1) := rfl
    rw [heq]
    exact ⟨by simp, by simp, fun meta h => Outcome.noConfusion h⟩
  case convertFails =>
    obtain ⟨em, ec, hfe⟩ := coremlFailureEvent_error msg
    have heq : convert_to_coreml tm shape out name (.convertFails msg) =
        ([Event.log "info" "Converting to CoreML format",
          Event.progress (mkRat 5 10) "Converting to CoreML",
          coremlInputTypeLog shape,
          Event.progress (mkRat 6 10) "Running coremltools conversion"] ++
         [coremlFailureEvent msg], .exits 1) := rfl
    rw [heq]
    refine ⟨?_, by simp [hlm, hfe], fun meta h => Outcome.noConfusion h⟩
    have hpv : progressValues
        ([Event.log "info" "Converting to CoreML format",
          Event.progress (mkRat 5 10) "Converting to CoreML",
          coremlInputTypeLog shape,
          Event.progress (mkRat 6 10) "Running coremltools conversion"] ++
         [coremlFailureEvent msg]) = [mkRat 5 10, mkRat 6 10] := by simp [hlm, hfe]
    rw [hpv]
    show ([mkRat 5 10, mkRat 6 10]).Sublist
      ([mkRat 5 10, mkRat 6 10] ++ [mkRat 8 10, mkRat 9 10, 1])
    exact List.sublist_append_left _ _
  case saveFails =>
    obtain ⟨em, ec, hfe⟩ := coremlFailureEvent_error msg
    have heq : convert_to_coreml tm shape out name (.saveFails msg) =
        ([Event.log "info" "Converting to CoreML format",
          Event.progress (mkRat 5 10) "Converting to CoreML",
          coremlInputTypeLog shape,
          Event.progress (mkRat 6 10) "Running coremltools conversion"] ++
         [Event.progress (mkRat 8 10) "Optimizing model",
          Event.progress (mkRat 9 10) "Saving model",
          Event.log "info" ("Saving CoreML model to " ++ out),
          coremlFailureEvent msg], .exits 1) := rfl
    rw [heq]
    refine ⟨?_, by simp [hlm, hfe], fun meta h => Outcome.noConfusion h⟩
    have hpv : progressValues
        ([Event.log "info" "Converting to CoreML format",
          Event.progress (mkRat 5 10) "Converting to CoreML",
          coremlInputTypeLog shape,
          Event.progress (mkRat 6 10) "Running coremltools conversion"] ++
         [Event.progress (mkRat 8 10) "Optimizing model",
          Event.progress (mkRat 9 10) "Saving model",
          Event.log "info" ("Saving CoreML model to " ++ out),
          coremlFailureEvent msg]) =
        [mkRat 5 10, mkRat 6 10, mkRat 8 10, mkRat 9 10] := by simp [hlm, hfe]
    rw [hpv]
    show ([mkRat 5 10, mkRat 6 10, mkRat 8 10, mkRat 9 10]).Sublist
      ([mkRat 5 10, mkRat 6 10, mkRat 8 10, mkRat 9 10] ++ [1])
    exact List.sublist_append_left _ _
  case ok =>
    have heq : convert_to_coreml tm shape out name .ok =
        ([Event.log "info" "Converting to CoreML format",
          Event.progress (mkRat 5 10) "Converting to CoreML",
          coremlInputTypeLog shape,
          Event.progress (mkRat 6 10) "Running coremltools conversion"] ++
         [Event.progress (mkRat 8 10) "Optimizing model",
          Event.progress (mkRat 9 10) "Saving model",
          Event.log "info" ("Saving CoreML model to " ++ out),
          Event.progress 1 "Complete"],
         .ret (.coremlMeta shape "all" "macOS14")) := rfl
    rw [heq]
    have hpv : progressValues
        ([Event.log "info" "Converting to CoreML format",
          Event.progress (mkRat 5 10) "Converting to CoreML",
          coremlInputTypeLog shape,
          Event.progress (mkRat 6 10) "Running coremltools conversion"] ++
         [Event.progress (mkRat 8 10) "Optimizing model",
          Event.progress (mkRat 9 10) "Saving model",
          Event.log "info" ("Saving CoreML model to " ++ out),
          Event.progress 1 "Complete"]) = convMaster := by
      simp [hlm, convMaster]
    rw [hpv]
    exact ⟨List.Sublist.refl _, by simp [hlm], fun meta h => rfl⟩

/-- The tail of `convert_to_mlx` appends a subsequence of the progress
values `0.6, 0.8, 0.9, 1.0`, no completed or error event, and on success
its appended progress values are exactly that sequence. -/
lemma mlx_rest_spec (sd : PyObj) (shape : List Int) (out : String) (w : MlxWorld)
    (ev : List Event) :
    (∃ tl, progressValues (convert_to_mlx_rest sd shape out w ev).events =
        progressValues ev ++ tl ∧ tl.Sublist [mkRat 6 10, mkRat 8 10, mkRat 9 10, 1]) ∧
    completedEvents (convert_to_mlx_rest sd shape out w ev).events = completedEvents ev ∧
    errorEvents (convert_to_mlx_rest sd shape out w ev).events = errorEvents ev ∧
    (∀ meta, (convert_to_mlx_rest sd shape out w ev).outcome = .ret meta →
        progressValues (convert_to_mlx_rest sd shape out w ev).events =
          progressValues ev ++ [mkRat 6 10, mkRat 8 10, mkRat 9 10, 1]) := by
  unfold convert_to_mlx_rest
  split
  · split
    · refine ⟨⟨[mkRat 6 10, mkRat 8 10], by simp, ?_⟩, by simp, by simp,
        fun meta h => Outcome.noConfusion h⟩
      show ([mkRat 6 10, mkRat 8 10]).Sublist ([mkRat 6 10, mkRat 8 10] ++ [mkRat 9 10, 1])
      exact List.sublist_append_left _ _
    · split
      · refine ⟨⟨[mkRat 6 10, mkRat 8 10, mkRat 9 10], by simp, ?_⟩, by simp, by simp,
          fun meta h => Outcome.noConfusion h⟩
        show ([mkRat 6 10, mkRat 8 10, mkRat 9 10]).Sublist
          ([mkRat 6 10, mkRat 8 10, mkRat 9 10] ++ [1])
        exact List.sublist_append_left _ _
      · exact ⟨⟨[mkRat 6 10, mkRat 8 10, mkRat 9 10, 1], by simp, List.Sublist.refl _⟩,
          by simp, by simp, fun meta h => by simp⟩
  · refine ⟨⟨[mkRat 6 10], by simp, ?_⟩, by simp, by simp,
      fun meta h => Outcome.noConfusion h⟩
    show ([mkRat 6 10]).Sublist ([mkRat 6 10] ++ [mkRat 8 10, mkRat 9 10, 1])
    exact List.sublist_append_left _ _

/-- `convert_to_mlx` emits a subsequence of the progress values
`0.5, 0.6, 0.8, 0.9, 1.0`, no completed event, and on success its
progress values are exactly that sequence (ending in 1.0). -/
lemma mlx_spec (osd : Option PyObj) (shape : List Int) (out : String) (cp : PyObj)
    (w : MlxWorld) :
    (progressValues (convert_to_mlx osd shape out cp w).events).Sublist convMaster ∧
    completedEvents (convert_to_mlx osd shape out cp w).events = [] ∧
    (∀ meta, (convert_to_mlx osd shape out cp w).outcome = .ret meta →
        progressValues (convert_to_mlx osd shape out cp w).events = convMaster) := by
  unfold convert_to_mlx
  have hrest : ∀ sd : PyObj,
      (progressValues (convert_to_mlx_rest sd shape out w
          [Event.log "info" "Converting to MLX safetensors format",
           Event.progress (mkRat 5 10) "Extracting weights"]).events).Sublist convMaster ∧
      completedEvents (convert_to_mlx_rest sd shape out w
          [Event.log "info" "Converting to MLX safetensors format",
           Event.progress (mkRat 5 10) "Extracting weights"]).events = [] ∧
      (∀ meta, (convert_to_mlx_rest sd shape out w
          [Event.log "info" "Converting to MLX safetensors format",
           Event.progress (mkRat 5 10) "Extracting weights"]).outcome = .ret meta →
        progressValues (convert_to_mlx_rest sd shape out w
          [Event.log "info" "Converting to MLX safetensors format",
           Event.progress (mkRat 5 10) "Extracting weights"]).events = convMaster) := by
    intro sd
    obtain ⟨⟨tl, htl, hsub⟩, hc, he, hret⟩ := mlx_rest_spec sd shape out w
      [Event.log "info" "Converting to MLX safetensors format",
       Event.progress (mkRat 5 10) "Extracting weights"]
    have hev : progressValues
        [Event.log "info" "Converting to MLX safetensors format",
         Event.progress (mkRat 5 10) "Extracting weights"] = [mkRat 5 10] := by simp
    refine ⟨?_, by simpa using hc, fun meta h => ?_⟩
    · rw [htl, hev]
      show (mkRat 5 10 :: tl).Sublist
        (mkRat 5 10 :: [mkRat 6 10, mkRat 8 10, mkRat 9 10, 1])
      exact List.Sublist.cons₂ _ hsub
    · rw [hret meta h, hev]
      rfl
  split
  · split
    · exact hrest _
    · split
      · exact hrest _
      · refine ⟨?_, by simp, fun meta h => Outcome.noConfusion h⟩
        have hpv : progressValues
            ([Event.log "info" "Converting to MLX safetensors format",
              Event.progress (mkRat 5 10) "Extracting weights"] ++
             [Event.error "Cannot extract state_dict from checkpoint" "INVALID_CHECKPOINT"]) =
            [mkRat 5 10] := by simp
        rw [hpv]
        show ([mkRat 5 10]).Sublist
          ([mkRat 5 10] ++ [mkRat 6 10, mkRat 8 10, mkRat 9 10, 1])
        exact List.sublist_append_left _ _
  · exact ⟨by simp, by simp, fun meta h => Outcome.noConfusion h⟩

/-- `getLast?` of anything followed by the converter progress sequence
is the final `1.0`. -/
lemma getLast?_append_convMaster (l : List ℚ) : (l ++ convMaster).getLast? = some 1 := by
  show (l ++ ([mkRat 5 10, mkRat 6 10, mkRat 8 10, mkRat 9 10] ++ [(1 : ℚ)])).getLast? = some 1
  rw [← List.append_assoc]
  exact List.getLast?_concat _

/-- A stream made of a completed-free prefix (whose last progress value is
1.0) and one final event satisfies the final-progress property. -/
lemma finalProgress_of_last (E : List Event) (c : Event)
    (hE : completedEvents E = []) (hlast : (progressValues E).getLast? = some 1) :
    finalProgressIsOne (E ++ [c]) := by
  intro pre e post heq hce
  have hmem : e ∈ E → False := by
    intro hin
    have : e ∈ completedEvents E := List.mem_filter.mpr ⟨hin, hce⟩
    rw [hE] at this
    exact absurd this (List.not_mem_nil e)
  rcases List.append_eq_append_iff.mp heq with ⟨a, ha1, ha2⟩ | ⟨a, ha1, ha2⟩
  · rcases a with _ | ⟨x, xs⟩
    · have hpre : pre = E := by simpa using ha1
      rw [hpre]
      exact hlast
    · exfalso
      rw [List.cons_append] at ha2
      have h2 := (List.cons.injEq _ _ _ _).mp ha2
      simp at h2
  · rcases a with _ | ⟨y, ys⟩
    · have hpre : E = pre := by simpa using ha1
      rw [← hpre]
      exact hlast
    · exfalso
      rw [List.cons_append] at ha2
      have hey : e = y := ((List.cons.injEq _ _ _ _).mp ha2).1
      apply hmem
      rw [ha1, hey]
      exact List.mem_append_right pre (List.mem_cons_self y ys)

/-- Every run emits a subsequence of the master progress sequence, and
either emits no completed event or ends in a single completed event whose
completed-free prefix has final progress value exactly 1.0. -/
lemma runMain_structure (args : Args) (w : World) :
    (progressValues (runMain args w).events).Sublist fullMaster ∧
    (completedEvents (runMain args w).events = [] ∨
      ∃ E c, (runMain args w).events = E ++ [c] ∧ c.isCompleted = true ∧
        completedEvents E = [] ∧ (progressValues E).getLast? = some 1) := by
  unfold runMain
  split
  next e heq => exact ⟨by simp, Or.inl (by simp)⟩
  next shape heq =>
    split
    · exact ⟨by simp, Or.inl (by simp)⟩
    · obtain ⟨hl1, hl2, hl3⟩ := load_spec args.input shape w.load
      have hLF : (progressValues (load_pytorch_model args.input shape w.load).1).Sublist
          fullMaster := hl1.trans (List.sublist_append_left _ _)
      rcases hres : (load_pytorch_model args.input shape w.load).2 with rtc | msg | c
      case raise =>
        simp only [hres]
        exact ⟨by simpa using hLF, Or.inl (by simp [hl3])⟩
      case exits =>
        simp only [hres]
        exact ⟨by simpa using hLF, Or.inl (by simp [hl3])⟩
      case ret =>
        simp only [hres]
        by_cases hfmt : args.fmt = "coreml"
        · rw [if_pos hfmt]
          rcases hrtc : rtc.1 with _ | tm
          · simp only [hrtc]
            exact ⟨by simpa using hLF, Or.inl (by simp [hl3])⟩
          · simp only [hrtc]
            obtain ⟨hc1, hc2, hc3⟩ := coreml_spec tm shape args.output args.name w.coreml
            have hsub : (progressValues (load_pytorch_model args.input shape w.load).1 ++
                progressValues (convert_to_coreml tm shape args.output args.name
                  w.coreml).1).Sublist (loadMaster ++ convMaster) :=
              List.Sublist.append hl1 hc1
            rcases hout : (convert_to_coreml tm shape args.output args.name w.coreml).2 with
              meta | msg | c
            · simp only [hout]
              refine ⟨by simpa [fullMaster] using hsub,
                Or.inr ⟨_, _, rfl, isCompleted_completed _ _ _, by simp [hl3, hc2], ?_⟩⟩
              have hpv := hc3 meta hout
              simp only [progressValues_append, progressValues_cons_log,
                progressValues_nil, hpv, List.nil_append]
              exact getLast?_append_convMaster _
            · simp only [hout]
              exact ⟨by simpa [fullMaster] using hsub, Or.inl (by simp [hl3, hc2])⟩
            · simp only [hout]
              exact ⟨by simpa [fullMaster] using hsub, Or.inl (by simp [hl3, hc2])⟩
        · rw [if_neg hfmt]
          obtain ⟨hm1, hm2, hm3⟩ := mlx_spec rtc.2.1 shape args.output rtc.2.2 w.mlx
          have hsub : (progressValues (load_pytorch_model args.input shape w.load).1 ++
              progressValues (convert_to_mlx rtc.2.1 shape args.output rtc.2.2
                w.mlx).events).Sublist (loadMaster ++ convMaster) :=
            List.Sublist.append hl1 hm1
          rcases hout : (convert_to_mlx rtc.2.1 shape args.output rtc.2.2 w.mlx).outcome with
            meta | msg | c
          · simp only [hout]
            refine ⟨by simpa [fullMaster] using hsub,
              Or.inr ⟨_, _, rfl, isCompleted_completed _ _ _, by simp [hl3, hm2], ?_⟩⟩
            have hpv := hm3 meta hout
            simp only [progressValues_append, progressValues_cons_log,
              progressValues_nil, hpv, List.nil_append]
            exact getLast?_append_convMaster _
          · simp only [hout]
            exact ⟨by simpa [fullMaster] using hsub, Or.inl (by simp [hl3, hm2])⟩
          · simp only [hout]
            exact ⟨by simpa [fullMaster] using hsub, Or.inl (by simp [hl3, hm2])⟩

/-! ## Helper lemmas about the tensor loop -/

/-- Upcasting never changes the shape. -/
lemma upcastTensor_shape (t : Tensor) : (upcastTensor t).shape = t.shape := by
  unfold upcastTensor Tensor.toFloat32
  split <;> rfl

/-- Upcasting never leaves a reduced-precision dtype. -/
lemma upcastTensor_not_reduced (t : Tensor) :
    (upcastTensor t).dtype ≠ Dtype.float16 ∧ (upcastTensor t).dtype ≠ Dtype.bfloat16 := by
  unfold upcastTensor Tensor.toFloat32
  split
  · exact ⟨fun h => Dtype.noConfusion h, fun h => Dtype.noConfusion h⟩
  · next h =>
    push_neg at h
    exact h

/-- What one weight-mapping entry contributes to `layer_info`. -/
def recordOf (kv : String × PyObj) : Option TensorRecord :=
  match kv.2 with
  | .tensor t => some ⟨kv.1, (upcastTensor t).shape, (upcastTensor t).dtype.label⟩
  | _ => none

/-- One loop step on a tensor entry. -/
lemma processTensorsAux_cons_tensor (k : String) (t0 : Tensor) (rest : List (String × PyObj))
    (tens : List (String × Tensor)) (li : List TensorRecord) :
    processTensorsAux ((k, PyObj.tensor t0) :: rest) tens li =
      processTensorsAux rest (dictInsert tens k (upcastTensor t0))
        (li ++ [⟨k, (upcastTensor t0).shape, (upcastTensor t0).dtype.label⟩]) := rfl

/-- One loop step on a non-tensor entry: skipped. -/
lemma processTensorsAux_cons_other (k : String) (v : PyObj) (hv : v.isTensor = false)
    (rest : List (String × PyObj)) (tens : List (String × Tensor)) (li : List TensorRecord) :
    processTensorsAux ((k, v) :: rest) tens li = processTensorsAux rest tens li := by
  cases v
  case tensor => simp [PyObj.isTensor] at hv
  all_goals rfl

/-- `recordOf` of a non-tensor entry is empty. -/
lemma recordOf_other (k : String) (v : PyObj) (hv : v.isTensor = false) :
    recordOf (k, v) = none := by
  cases v
  case tensor => simp [PyObj.isTensor] at hv
  all_goals rfl

/-- The recorded layer list is the per-entry contributions in order. -/
lemma processTensorsAux_records (l : List (String × PyObj)) (tens : List (String × Tensor))
    (li : List TensorRecord) :
    (processTensorsAux l tens li).2 = li ++ l.filterMap recordOf := by
  induction l generalizing tens li with
  | nil => simp [processTensorsAux]
  | cons kv rest ih =>
    rcases kv with ⟨k, v⟩
    rcases hv : v.isTensor with _ | _
    · rw [processTensorsAux_cons_other k v hv, ih, List.filterMap_cons,
        recordOf_other k v hv]
    · rcases v with _ | t | es | ⟨e, t2, s2, sd2⟩
      case tensor =>
        rw [processTensorsAux_cons_tensor, ih]
        simp [recordOf]
      all_goals exact absurd hv (by simp [PyObj.isTensor])

/-- Membership in a Python-style dict update. -/
lemma mem_dictInsert (d : List (String × Tensor)) (k : String) (v : Tensor)
    (x : String × Tensor) (hx : x ∈ dictInsert d k v) : x ∈ d ∨ x = (k, v) := by
  unfold dictInsert at hx
  split at hx
  · obtain ⟨p, hp, hpe⟩ := List.mem_map.mp hx
    by_cases hpk : p.1 = k
    · right
      rw [← hpe, if_pos hpk]
    · left
      rw [← hpe, if_neg hpk]
      exact hp
  · rcases List.mem_append.mp hx with h | h
    · exact Or.inl h
    · right
      simpa using h

/-- The tensors dict never holds a reduced-precision dtype, given the
accumulator does not. -/
lemma processTensorsAux_dtypes (l : List (String × PyObj)) (tens : List (String × Tensor))
    (li : List TensorRecord)
    (h : ∀ kt ∈ tens, kt.2.dtype ≠ Dtype.float16 ∧ kt.2.dtype ≠ Dtype.bfloat16) :
    ∀ kt ∈ (processTensorsAux l tens li).1,
      kt.2.dtype ≠ Dtype.float16 ∧ kt.2.dtype ≠ Dtype.bfloat16 := by
  induction l generalizing tens li with
  | nil => simpa [processTensorsAux] using h
  | cons kv rest ih =>
    rcases kv with ⟨k, v⟩
    rcases hv : v.isTensor with _ | _
    · rw [processTensorsAux_cons_other k v hv]
      exact ih tens li h
    · rcases v with _ | t | es | ⟨e, t2, s2, sd2⟩
      case tensor =>
        rw [processTensorsAux_cons_tensor]
        apply ih
        intro kt hkt
        rcases mem_dictInsert _ _ _ _ hkt with hin | heq
        · exact h kt hin
        · rw [heq]
          exact upcastTensor_not_reduced t
      all_goals exact absurd hv (by simp [PyObj.isTensor])

/-- Entry count of the record list: one per tensor-typed entry. -/
lemma filterMap_recordOf_length (l : List (String × PyObj)) :
    (l.filterMap recordOf).length = (l.filter (fun kv => kv.2.isTensor)).length := by
  induction l with
  | nil => rfl
  | cons kv rest ih =>
    rcases kv with ⟨k, v⟩
    rcases hv : v.isTensor with _ | _
    · rw [List.filterMap_cons, recordOf_other k v hv]
      simp [List.filter_cons, hv, ih]
    · rcases v with _ | t | es | ⟨e, t2, s2, sd2⟩
      case tensor =>
        simp [recordOf, List.filter_cons, PyObj.isTensor, ih]
      all_goals exact absurd hv (by simp [PyObj.isTensor])

/-- The error event of the CoreML failure handler, as a (message, code)
pair selected by the case-insensitive substring cascade. -/
lemma errorEvents_coremlFailureEvent (msg : String) :
    errorEvents [coremlFailureEvent msg] =
      [if strContains (pyLower msg) "not supported" then
         ("Model contains unsupported operations: " ++ msg, "UNSUPPORTED_OP")
       else if strContains (pyLower msg) "shape" then
         ("Shape mismatch during conversion: " ++ msg, "SHAPE_MISMATCH")
       else ("CoreML conversion failed: " ++ msg, "CONVERSION_FAILED")] := by
  unfold coremlFailureEvent
  split_ifs <;> simp

/-- The classifier on a mapping, as a first-match cascade over the
recognized keys. -/
lemma classifyCheckpoint_dict (entries : List (String × PyObj)) :
    classifyCheckpoint (.dict entries) =
      (match List.lookup "model" entries with
       | some m =>
         (some m, none, [Event.log "info" "Found \x27model\x27 key in checkpoint"])
       | none =>
         match List.lookup "state_dict" entries with
         | some sd =>
           (none, some sd,
            [Event.log "info" "Found \x27state_dict\x27 key (model class required)"])
         | none =>
           match List.lookup "model_state_dict" entries with
           | some sd =>
             (none, some sd,
              [Event.log "info" "Found \x27model_state_dict\x27 key (model class required)"])
           | none =>
             if entries.all (fun kv => kv.2.isTensor) then
               (none, some (.dict entries),
                [Event.log "info" "Checkpoint appears to be a state_dict"])
             else (some (.dict entries), none, [])) := rfl

/-! ## Claim theorems -/

/-- C1: checkpoint classification follows the ordered first-match rules:
a `model` key wins regardless of other keys (RunnableModel on the nested
value); else `state_dict`/`model_state_dict` give WeightMapping on the
nested value; else an all-tensor mapping is a WeightMapping; else a
mapping is a candidate RunnableModel; a non-mapping is itself a
RunnableModel; and a WeightMapping classification bypasses the
materializer entirely (no tracing progress, no traced model returned). -/
theorem classify_first_match :
    (∀ (entries : List (String × PyObj)) (m : PyObj),
        List.lookup "model" entries = some m →
        classifyCheckpoint (.dict entries) =
          (some m, none, [.log "info" "Found \x27model\x27 key in checkpoint"])) ∧
    (∀ (entries : List (String × PyObj)) (sd : PyObj),
        List.lookup "model" entries = none →
        List.lookup "state_dict" entries = some sd →
        classifyCheckpoint (.dict entries) =
          (none, some sd, [.log "info" "Found \x27state_dict\x27 key (model class required)"])) ∧
    (∀ (entries : List (String × PyObj)) (sd : PyObj),
        List.lookup "model" entries = none →
        List.lookup "state_dict" entries = none →
        List.lookup "model_state_dict" entries = some sd →
        classifyCheckpoint (.dict entries) =
          (none, some sd,
           [.log "info" "Found \x27model_state_dict\x27 key (model class required)"])) ∧
    (∀ entries : List (String × PyObj),
        List.lookup "model" entries = none →
        List.lookup "state_dict" entries = none →
        List.lookup "model_state_dict" entries = none →
        entries.all (fun kv => kv.2.isTensor) = true →
        classifyCheckpoint (.dict entries) =
          (none, some (.dict entries),
           [.log "info" "Checkpoint appears to be a state_dict"])) ∧
    (∀ entries : List (String × PyObj),
        List.lookup "model" entries = none →
        List.lookup "state_dict" entries = none →
        List.lookup "model_state_dict" entries = none →
        entries.all (fun kv => kv.2.isTensor) = false →
        classifyCheckpoint (.dict entries) = (some (.dict entries), none, [])) ∧
    (∀ cp : PyObj, cp.isDict = false → classifyCheckpoint cp = (some cp, none, [])) ∧
    (∀ (path : String) (shape : List Int) (cp sd : PyObj) (logs : List Event),
        classifyCheckpoint cp = (none, some sd, logs) →
        (load_pytorch_model path shape (.ok cp)).2 = .ret (none, some sd, cp) ∧
        progressValues (load_pytorch_model path shape (.ok cp)).1 =
          [mkRat 1 10, mkRat 2 10, mkRat 3 10]) := by
  refine ⟨?_, ?_, ?_, ?_, ?_, ?_, ?_⟩
  · intro entries m h
    rw [classifyCheckpoint_dict, h]
  · intro entries sd h1 h2
    rw [classifyCheckpoint_dict, h1, h2]
  · intro entries sd h1 h2 h3
    rw [classifyCheckpoint_dict, h1, h2, h3]
  · intro entries h1 h2 h3 h4
    rw [classifyCheckpoint_dict, h1, h2, h3]
    simp only [h4, if_true]
  · intro entries h1 h2 h3 h4
    rw [classifyCheckpoint_dict, h1, h2, h3]
    simp only [h4, Bool.false_eq_true, if_false]
  · intro cp h
    cases cp
    case dict => simp [PyObj.isDict] at h
    all_goals rfl
  · intro path shape cp sd logs hcls
    obtain ⟨hc1, _, _⟩ := classify_events cp
    rw [hcls] at hc1
    have h1 : progressValues logs = [] := by simpa using hc1
    have heq : load_pytorch_model path shape (.ok cp) =
        load_afterLoad shape cp
          [.log "info" ("Loading PyTorch model from " ++ path),
           .progress (mkRat 1 10) "Loading model"] := rfl
    rw [heq]
    unfold load_afterLoad
    simp only [hcls]
    exact ⟨by simp, by simp [h1]⟩

/-- C1 (witness): a mapping holding both a `model` key and a `state_dict`
key classifies as RunnableModel on the nested `model` value. -/
theorem classify_first_match_witness :
    classifyCheckpoint (.dict [("model", .pyNone), ("state_dict", .dict [])]) =
      (some .pyNone, none, [.log "info" "Found \x27model\x27 key in checkpoint"]) :=
  classify_first_match.1 [("model", .pyNone), ("state_dict", .dict [])] .pyNone rfl

/-- C2: a run requesting coreml whose load step produced only a weight
mapping (no traced model) refuses with exactly one error event carrying
code STATE_DICT_ONLY, emits no completed event, and exits with status 1. -/
theorem coreml_refuses_weights_only (args : Args) (w : World) (shape : List Int)
    (sd cp : PyObj)
    (hparse : parseShape args.input_shape = .ok shape)
    (hlen : ¬ shape.length < 2)
    (hfmt : args.fmt = "coreml")
    (hload : (load_pytorch_model args.input shape w.load).2 = .ret (none, some sd, cp)) :
    errorEvents (runMain args w).events =
      [("CoreML conversion requires a traceable model. This checkpoint only contains weights (state_dict). Try MLX format instead.", "STATE_DICT_ONLY")] ∧
    completedEvents (runMain args w).events = [] ∧
    (runMain args w).exitCode = 1 := by
  obtain ⟨hl1, hl2, hl3⟩ := load_spec args.input shape w.load
  unfold runMain
  simp only [hparse]
  rw [if_neg hlen]
  simp only [hload]
  rw [if_pos hfmt]
  exact ⟨by simp [hl2], by simp [hl3], rfl⟩

/-- C2 (witness): a `{"state_dict": {}}` checkpoint against coreml. -/
theorem coreml_refuses_weights_only_witness :
    errorEvents (runMain ⟨"in.pt", "o.mlpackage", "coreml", "1,2", "n"⟩
        ⟨.ok (.dict [("state_dict", .dict [])]), .ok, ⟨true, none, none⟩⟩).events =
      [("CoreML conversion requires a traceable model. This checkpoint only contains weights (state_dict). Try MLX format instead.", "STATE_DICT_ONLY")] ∧
    completedEvents (runMain ⟨"in.pt", "o.mlpackage", "coreml", "1,2", "n"⟩
        ⟨.ok (.dict [("state_dict", .dict [])]), .ok, ⟨true, none, none⟩⟩).events = [] ∧
    (runMain ⟨"in.pt", "o.mlpackage", "coreml", "1,2", "n"⟩
        ⟨.ok (.dict [("state_dict", .dict [])]), .ok, ⟨true, none, none⟩⟩).exitCode = 1 :=
  coreml_refuses_weights_only _ _ [1, 2] (.dict []) (.dict [("state_dict", .dict [])])
    rfl (by decide) rfl rfl

/-- C7: an exception from the graph compiler during coreml conversion is
reported as exactly one error event whose code follows the
case-insensitive substring cascade (UNSUPPORTED_OP for "not supported",
else SHAPE_MISMATCH for "shape", else CONVERSION_FAILED), with no
completed event and exit status 1. -/
theorem coreml_error_code_mapping (args : Args) (w : World) (shape : List Int)
    (tm : TracedModel) (osd : Option PyObj) (cp : PyObj) (msg : String)
    (hparse : parseShape args.input_shape = .ok shape)
    (hlen : ¬ shape.length < 2)
    (hfmt : args.fmt = "coreml")
    (hload : (load_pytorch_model args.input shape w.load).2 = .ret (some tm, osd, cp))
    (hw : w.coreml = .convertFails msg) :
    errorEvents (runMain args w).events =
      [if strContains (pyLower msg) "not supported" then
         ("Model contains unsupported operations: " ++ msg, "UNSUPPORTED_OP")
       else if strContains (pyLower msg) "shape" then
         ("Shape mismatch during conversion: " ++ msg, "SHAPE_MISMATCH")
       else ("CoreML conversion failed: " ++ msg, "CONVERSION_FAILED")] ∧
    completedEvents (runMain args w).events = [] ∧
    (runMain args w).exitCode = 1 := by
  obtain ⟨hl1, hl2, hl3⟩ := load_spec args.input shape w.load
  obtain ⟨lm, hlm⟩ := coremlInputTypeLog_log shape
  obtain ⟨em, ec, hfe⟩ := coremlFailureEvent_error msg
  unfold runMain
  simp only [hparse]
  rw [if_neg hlen]
  simp only [hload]
  rw [if_pos hfmt]
  have hcc : convert_to_coreml tm shape args.output args.name w.coreml =
      ([Event.log "info" "Converting to CoreML format",
        Event.progress (mkRat 5 10) "Converting to CoreML",
        coremlInputTypeLog shape,
        Event.progress (mkRat 6 10) "Running coremltools conversion"] ++
       [coremlFailureEvent msg], .exits 1) := by rw [hw]; rfl
  simp only [hcc]
  refine ⟨?_, by simp [hl3, hlm, hfe], by simp⟩
  rw [← errorEvents_coremlFailureEvent msg]
  simp [hl2, hlm, hfe]

/-- C7 (witness): a compiler message containing "Not Supported" maps to
UNSUPPORTED_OP. -/
theorem coreml_error_code_mapping_witness :
    errorEvents (runMain ⟨"in.pt", "o.mlpackage", "coreml", "1,2", "n"⟩
        ⟨.ok (.obj none none none none), .convertFails "op X Not Supported here",
         ⟨true, none, none⟩⟩).events =
      [("Model contains unsupported operations: op X Not Supported here",
        "UNSUPPORTED_OP")] ∧
    completedEvents (runMain ⟨"in.pt", "o.mlpackage", "coreml", "1,2", "n"⟩
        ⟨.ok (.obj none none none none), .convertFails "op X Not Supported here",
         ⟨true, none, none⟩⟩).events = [] ∧
    (runMain ⟨"in.pt", "o.mlpackage", "coreml", "1,2", "n"⟩
        ⟨.ok (.obj none none none none), .convertFails "op X Not Supported here",
         ⟨true, none, none⟩⟩).exitCode = 1 :=
  coreml_error_code_mapping _ _ [1, 2] (.traced (.obj none none none none)) none
    (.obj none none none none) "op X Not Supported here" rfl (by decide) rfl rfl rfl

/-- C8: when the parsed input shape has fewer than 2 dimensions, the run
stops before any loading or conversion: the stream is exactly the
shape-echo log followed by one INVALID_SHAPE error, no progress and no
completed events are emitted, and the exit status is 1. -/
theorem invalid_shape_rejected (args : Args) (w : World) (shape : List Int)
    (hparse : parseShape args.input_shape = .ok shape)
    (hlen : shape.length < 2) :
    (runMain args w).events =
      [.log "info" ("Input shape: " ++ pyTupleRepr shape),
       .error "Input shape must have at least 2 dimensions" "INVALID_SHAPE"] ∧
    errorEvents (runMain args w).events =
      [("Input shape must have at least 2 dimensions", "INVALID_SHAPE")] ∧
    progressValues (runMain args w).events = [] ∧
    completedEvents (runMain args w).events = [] ∧
    (runMain args w).exitCode = 1 := by
  unfold runMain
  simp only [hparse]
  rw [if_pos hlen]
  exact ⟨rfl, by simp, by simp, by simp, rfl⟩

/-- C8 (witness): the one-dimension shape argument "5". -/
theorem invalid_shape_rejected_witness :
    (runMain ⟨"in.pt", "o", "mlx", "5", "n"⟩
        ⟨.ok (.dict []), .ok, ⟨true, none, none⟩⟩).events =
      [.log "info" ("Input shape: " ++ pyTupleRepr [5]),
       .error "Input shape must have at least 2 dimensions" "INVALID_SHAPE"] ∧
    errorEvents (runMain ⟨"in.pt", "o", "mlx", "5", "n"⟩
        ⟨.ok (.dict []), .ok, ⟨true, none, none⟩⟩).events =
      [("Input shape must have at least 2 dimensions", "INVALID_SHAPE")] ∧
    progressValues (runMain ⟨"in.pt", "o", "mlx", "5", "n"⟩
        ⟨.ok (.dict []), .ok, ⟨true, none, none⟩⟩).events = [] ∧
    completedEvents (runMain ⟨"in.pt", "o", "mlx", "5", "n"⟩
        ⟨.ok (.dict []), .ok, ⟨true, none, none⟩⟩).events = [] ∧
    (runMain ⟨"in.pt", "o", "mlx", "5", "n"⟩
        ⟨.ok (.dict []), .ok, ⟨true, none, none⟩⟩).exitCode = 1 :=
  invalid_shape_rejected _ _ [5] rfl (by decide)

/-- C10: failures with no dedicated branch land in the generic handler:
an unparseable shape argument yields one CONVERSION_FAILED error (not
INVALID_SHAPE) with the ValueError message; a checkpoint that fails to
deserialize yields one CONVERSION_FAILED error (not INVALID_CHECKPOINT)
whose message quotes the first load attempt; both exit with status 1. -/
theorem generic_conversion_failed :
    (∀ (args : Args) (w : World) (e : String),
        parseShape args.input_shape = .error e →
        (runMain args w).events = [.error e "CONVERSION_FAILED"] ∧
        errorEvents (runMain args w).events = [(e, "CONVERSION_FAILED")] ∧
        completedEvents (runMain args w).events = [] ∧
        (runMain args w).exitCode = 1) ∧
    parseShape "1,abc" = .error "invalid literal for int() with base 10: \x27abc\x27" ∧
    (∀ (args : Args) (w : World) (shape : List Int) (e1 e2 : String),
        parseShape args.input_shape = .ok shape → ¬ shape.length < 2 →
        w.load = .fail e1 e2 →
        errorEvents (runMain args w).events =
          [("Failed to load model: " ++ e1, "CONVERSION_FAILED")] ∧
        completedEvents (runMain args w).events = [] ∧
        (runMain args w).exitCode = 1) := by
  refine ⟨?_, rfl, ?_⟩
  · intro args w e hparse
    unfold runMain
    simp only [hparse]
    refine ⟨by simp, by simp, by simp, by simp⟩
  · intro args w shape e1 e2 hparse hlen hw
    unfold runMain
    simp only [hparse]
    rw [if_neg hlen]
    have hres : (load_pytorch_model args.input shape w.load).2 =
        .raise ("Failed to load model: " ++ e1) := by rw [hw]; rfl
    have hev : (load_pytorch_model args.input shape w.load).1 =
        [.log "info" ("Loading PyTorch model from " ++ args.input),
         .progress (mkRat 1 10) "Loading model"] := by rw [hw]; rfl
    simp only [hres, hev]
    refine ⟨by simp, by simp, by simp⟩

/-- C10 (witness): the malformed shape token "abc" and a doubly failing
load, each reported as CONVERSION_FAILED. -/
theorem generic_conversion_failed_witness :
    ((runMain ⟨"in.pt", "o", "mlx", "1,abc", "n"⟩
        ⟨.ok (.dict []), .ok, ⟨true, none, none⟩⟩).events =
      [.error "invalid literal for int() with base 10: \x27abc\x27" "CONVERSION_FAILED"] ∧
     errorEvents (runMain ⟨"in.pt", "o", "mlx", "1,abc", "n"⟩
        ⟨.ok (.dict []), .ok, ⟨true, none, none⟩⟩).events =
      [("invalid literal for int() with base 10: \x27abc\x27", "CONVERSION_FAILED")] ∧
     completedEvents (runMain ⟨"in.pt", "o", "mlx", "1,abc", "n"⟩
        ⟨.ok (.dict []), .ok, ⟨true, none, none⟩⟩).events = [] ∧
     (runMain ⟨"in.pt", "o", "mlx", "1,abc", "n"⟩
        ⟨.ok (.dict []), .ok, ⟨true, none, none⟩⟩).exitCode = 1) ∧
    (errorEvents (runMain ⟨"in.pt", "o", "mlx", "1,2", "n"⟩
        ⟨.fail "badfile" "worse", .ok, ⟨true, none, none⟩⟩).events =
      [("Failed to load model: badfile", "CONVERSION_FAILED")] ∧
     completedEvents (runMain ⟨"in.pt", "o", "mlx", "1,2", "n"⟩
        ⟨.fail "badfile" "worse", .ok, ⟨true, none, none⟩⟩).events = [] ∧
     (runMain ⟨"in.pt", "o", "mlx", "1,2", "n"⟩
        ⟨.fail "badfile" "worse", .ok, ⟨true, none, none⟩⟩).exitCode = 1) :=
  ⟨generic_conversion_failed.1 _ _ "invalid literal for int() with base 10: \x27abc\x27" rfl,
   generic_conversion_failed.2.2 _ _ [1, 2] "badfile" "worse" rfl (by decide) rfl⟩

/-- C3 (counterexample): the architecture inferencer applied to the empty
name list returns "MLP", not "Custom" as claimed — the all-names MLP
predicate is vacuously true on an empty list, so the MLP branch fires. -/
theorem infer_architecture_empty_counterexample :
    infer_architecture [] ≠ "Custom" ∧ infer_architecture [] = "MLP" := by decide

/-- C3 (amended): the architecture inferencer is a deterministic total
function of the name list alone, and evaluates as:
`["conv1.weight","bn1.weight"] ↦ "CNN"`,
`["attention.q.weight","encoder.layer.0"] ↦ "Transformer"`,
`[] ↦ "MLP"` (not "Custom": the MLP predicate is vacuously true), and
`["fc1.weight","fc1.bias"] ↦ "MLP"`. -/
theorem infer_architecture_eval :
    (∀ li₁ li₂ : List TensorRecord, li₁.map TensorRecord.name = li₂.map TensorRecord.name →
        infer_architecture li₁ = infer_architecture li₂) ∧
    infer_architecture (mkRecs ["conv1.weight", "bn1.weight"]) = "CNN" ∧
    infer_architecture (mkRecs ["attention.q.weight", "encoder.layer.0"]) = "Transformer" ∧
    infer_architecture (mkRecs []) = "MLP" ∧
    infer_architecture (mkRecs ["fc1.weight", "fc1.bias"]) = "MLP" := by
  refine ⟨?_, by decide, by decide, by decide, by decide⟩
  intro li₁ li₂ h
  unfold infer_architecture
  have key : ∀ li : List TensorRecord,
      List.map (fun l => pyLower l.name) li = List.map pyLower (List.map TensorRecord.name li) :=
    fun li => (List.map_map pyLower TensorRecord.name li).symm
  have hmap : li₁.map (fun l => pyLower l.name) = li₂.map (fun l => pyLower l.name) := by
    rw [key, key, h]
  rw [hmap]

/-- C3 (witness): determinism applied to two record lists with the same
names but different shapes and dtype labels. -/
theorem infer_architecture_eval_witness :
    infer_architecture [⟨"fc1.weight", [4, 4], "torch.float32"⟩] =
      infer_architecture [⟨"fc1.weight", [], "torch.int64"⟩] :=
  infer_architecture_eval.1 [⟨"fc1.weight", [4, 4], "torch.float32"⟩]
    [⟨"fc1.weight", [], "torch.int64"⟩] (by decide)

/-- C4: in the flat-archive tensor loop, every produced TensorRecord
keeps the source tensor shape exactly, no tensor retained in the archive
has a reduced-precision dtype (float16/bfloat16 are upcast to float32
first), and non-tensor values are skipped (exactly one record per
tensor-typed entry). -/
theorem mlx_tensor_records_spec (entries : List (String × PyObj)) :
    (∀ r ∈ (processTensors entries).2, ∃ k t, (k, PyObj.tensor t) ∈ entries ∧
        r.name = k ∧ r.shape = t.shape) ∧
    (∀ kt ∈ (processTensors entries).1,
        kt.2.dtype ≠ Dtype.float16 ∧ kt.2.dtype ≠ Dtype.bfloat16) ∧
    (processTensors entries).2.length =
      (entries.filter (fun kv => kv.2.isTensor)).length := by
  unfold processTensors
  refine ⟨?_, processTensorsAux_dtypes entries [] [] (by intro kt hkt; cases hkt), ?_⟩
  · intro r hr
    rw [processTensorsAux_records, List.nil_append] at hr
    obtain ⟨kv, hkv, hrec⟩ := List.mem_filterMap.mp hr
    rcases kv with ⟨k, v⟩
    rcases hv : v.isTensor with _ | _
    · rw [recordOf_other k v hv] at hrec
      exact Option.noConfusion hrec
    · rcases v with _ | t | es | ⟨e, t2, s2, sd2⟩
      case tensor =>
        have hre : r = ⟨k, (upcastTensor t).shape, (upcastTensor t).dtype.label⟩ :=
          (Option.some.inj hrec).symm
        refine ⟨k, t, hkv, ?_, ?_⟩
        · rw [hre]
        · rw [hre]
          exact upcastTensor_shape t
      all_goals exact absurd hv (by simp [PyObj.isTensor])
  · rw [processTensorsAux_records, List.nil_append]
    exact filterMap_recordOf_length entries

/-- C4 (witness): the loop on the end-to-end checkpoint entries produces a
record named `conv1.weight` whose shape matches the source tensor. -/
theorem mlx_tensor_records_spec_witness :
    ∃ k t, (k, PyObj.tensor t) ∈ entries5 ∧
      (⟨"conv1.weight", [16, 3, 3, 3], "torch.float32"⟩ : TensorRecord).name = k ∧
      (⟨"conv1.weight", [16, 3, 3, 3], "torch.float32"⟩ : TensorRecord).shape = t.shape :=
  (mlx_tensor_records_spec entries5).1 ⟨"conv1.weight", [16, 3, 3, 3], "torch.float32"⟩
    (by decide)

/-- C5 (counterexample): on the end-to-end scenario the sidecar reports
totalParameters 448 (= 16·3·3·3 + 16), not 451 as claimed. -/
theorem mlx_e2e_total_counterexample :
    ((runMain args5 w5).sidecar.map Sidecar.totalParameters) = some 448 ∧
      (448 : Nat) ≠ 451 := by decide

/-- C5 (amended): for input shape `1,3,224,224` and the all-tensor
checkpoint `conv1.weight [16,3,3,3] float16`, `conv1.bias [16] float16`,
requesting mlx produces an archive of exactly two float32 tensors with
unchanged shapes, a sidecar with architectureType "CNN", layerCount 2 and
totalParameters 448, and exactly one completed event with format "mlx". -/
theorem mlx_e2e_run :
    (runMain args5 w5).archive =
      some [("conv1.weight", ⟨[16, 3, 3, 3], .float32⟩),
            ("conv1.bias", ⟨[16], .float32⟩)] ∧
    (runMain args5 w5).sidecar =
      some ⟨[1, 3, 224, 224], "mlx", 2,
            [⟨"conv1.weight", [16, 3, 3, 3], "torch.float32"⟩,
             ⟨"conv1.bias", [16], "torch.float32"⟩],
            "CNN", 448⟩ ∧
    completedEvents (runMain args5 w5).events =
      [.completed "out.safetensors" "mlx" (.mlxMeta [1, 3, 224, 224] "CNN" 2 448)] ∧
    (runMain args5 w5).exitCode = 0 := by decide

/-- C9: the empty mapping checkpoint is classified as a weight mapping
(the all-tensor check is vacuously true), and with mlx format the run
succeeds: empty archive, sidecar with layerCount 0, totalParameters 0 and
architectureType "MLP", one completed event, exit code 0. -/
theorem empty_mapping_mlx_run :
    classifyCheckpoint (.dict []) =
      (none, some (.dict []), [.log "info" "Checkpoint appears to be a state_dict"]) ∧
    (runMain args9 w9).archive = some [] ∧
    (runMain args9 w9).sidecar = some ⟨[1, 8], "mlx", 0, [], "MLP", 0⟩ ∧
    completedEvents (runMain args9 w9).events =
      [.completed "out.safetensors" "mlx" (.mlxMeta [1, 8] "MLP" 0 0)] ∧
    (runMain args9 w9).exitCode = 0 := by
  refine ⟨rfl, by decide, by decide, by decide, by decide⟩

/-- C6: within any single run the progress percents are monotonically
non-decreasing, every percent lies in [0, 1], and whenever a completed
event occurs, the progress value last emitted before it is exactly 1.0. -/
theorem progress_stream_invariants (args : Args) (w : World) :
    List.Sorted (· ≤ ·) (progressValues (runMain args w).events) ∧
    (∀ p ∈ progressValues (runMain args w).events, 0 ≤ p ∧ p ≤ 1) ∧
    finalProgressIsOne (runMain args w).events := by
  obtain ⟨hsub, hdisj⟩ := runMain_structure args w
  have hmaster : List.Sorted (· ≤ ·) fullMaster := by
    unfold fullMaster loadMaster convMaster
    decide
  have hall : ∀ q ∈ fullMaster, 0 ≤ q ∧ q ≤ 1 := by
    unfold fullMaster loadMaster convMaster
    decide
  refine ⟨hmaster.sublist hsub, fun p hp => hall p (hsub.subset hp), ?_⟩
  rcases hdisj with hnone | ⟨E, c, hEc, hcE, hE, hlast⟩
  · intro pre e post heq hce
    exfalso
    have hin : e ∈ (runMain args w).events := by
      rw [heq]
      exact List.mem_append_right pre (List.mem_cons_self e post)
    have : e ∈ completedEvents (runMain args w).events := List.mem_filter.mpr ⟨hin, hce⟩
    rw [hnone] at this
    exact absurd this (List.not_mem_nil e)
  · rw [hEc]
    exact finalProgress_of_last E c hE hlast

/-- C6 (witness): on the concrete empty-mapping mlx run, the decomposition
of the stream at its completed event has final progress exactly 1.0. -/
theorem progress_stream_invariants_witness :
    (progressValues ((runMain args9 w9).events.dropLast)).getLast? = some 1 :=
  (progress_stream_invariants args9 w9).2.2 ((runMain args9 w9).events.dropLast)
    (.completed "out.safetensors" "mlx" (.mlxMeta [1, 8] "MLP" 0 0)) []
    (by decide) rfl

end ConvertPytorch
